import Mathlib

/-!
Verification development for the message-driven conversational-bot core
(session & prompt-policy engine, resilient generation pipeline).

The Python sources are shallowly embedded:
* pure decision logic becomes Lean functions,
* the mutable session map becomes an explicit association list threaded
  through the handlers,
* Python exceptions become `Except` results,
* Python floats (cache-hit rates, thresholds) are embedded as rationals,
* `datetime.now()` values are abstracted by an opaque `EvtVal.time`
  placeholder (wall-clock time is out of scope for all properties).
-/

namespace Chimera

/-- Configuration surface of the core (PROMPT_CONFIG plus the two prompt
variants from the prompt table).  The concrete values live in
`config/prompts.py`, outside the verified sources; every theorem is stated
for an arbitrary configuration. -/
structure Config where
  use_json_mode : Bool
  json_fallback_enabled : Bool
  prompt_strategy : String
  enable_periodic_prompt : Bool
  system_prompt_interval : Nat
  cache_hit_threshold : ℚ
  prompts_json : String
  prompts_normal : String
deriving DecidableEq

/-- Reason attached to a prompt-inclusion decision
(`UserSessionActor._get_prompt_reason`).  The Python function renders these
as strings; the numeric formatting of the average is kept as the raw
rational value. -/
inductive PromptReason where
  | always_strategy : PromptReason
  | periodic_interval : Nat → PromptReason
  | low_cache_hit_rate : ℚ → PromptReason
  | adaptive_periodic : PromptReason
  | unknown : PromptReason
deriving DecidableEq

/-- Values stored in the data payload of an event. -/
inductive EvtVal where
  | s : String → EvtVal
  | n : Nat → EvtVal
  | q : ℚ → EvtVal
  | reasonV : PromptReason → EvtVal
  | null : EvtVal
  | time : EvtVal
deriving DecidableEq

/-- Append-only domain event (`BaseEvent`): stream id, type name, data
payload.  `event_id`, `version` and `correlation_id` are bookkeeping of the
external event store and are not modelled. -/
structure Event where
  stream_id : String
  event_type : String
  data : List (String × EvtVal)
deriving DecidableEq

/-- Session record (`UserSession`).  `created_at` / `last_activity` and the
reserved extension slots are not interpreted by any claim and are omitted. -/
structure UserSession where
  user_id : String
  username : Option String
  message_count : Nat
  cache_metrics : List ℚ
deriving DecidableEq

/-- The session map `UserSessionActor._sessions`, embedded as an
association list keyed by user id. -/
def SessionMap := List (String × UserSession)
deriving DecidableEq

def lookupSession : SessionMap → String → Option UserSession
  | [], _ => none
  | (k, v) :: rest, u => if k = u then some v else lookupSession rest u

def setSession : SessionMap → String → UserSession → SessionMap
  | [], u, s => [(u, s)]
  | (k, v) :: rest, u, s =>
    if k = u then (u, s) :: rest else (k, v) :: setSession rest u s

/-- Mean of the last five recorded cache-hit samples:
`sum(session.cache_metrics[-5:]) / 5`.  The Python slice `l[-5:]` is
`l.drop (l.length - 5)`. -/
def mean_last5 (l : List ℚ) : ℚ := (l.drop (l.length - 5)).sum / 5

/-- `UserSessionActor._should_include_prompt`, translated branch by branch. -/
def should_include_prompt (cfg : Config) (s : UserSession) : Bool :=
  if cfg.enable_periodic_prompt = false then
    true
  else if cfg.prompt_strategy = "always" then
    true
  else if cfg.prompt_strategy = "periodic" then
    decide (s.message_count % cfg.system_prompt_interval = 1)
  else if cfg.prompt_strategy = "adaptive" then
    if s.message_count % cfg.system_prompt_interval = 1 then
      true
    else if 5 ≤ s.cache_metrics.length then
      if mean_last5 s.cache_metrics < cfg.cache_hit_threshold then true
      else false
    else false
  else false

/-- `UserSessionActor._get_prompt_reason`. -/
def get_prompt_reason (cfg : Config) (s : UserSession) : PromptReason :=
  if cfg.prompt_strategy = "always" then
    .always_strategy
  else if cfg.prompt_strategy = "periodic" then
    .periodic_interval cfg.system_prompt_interval
  else if cfg.prompt_strategy = "adaptive" then
    if 5 ≤ s.cache_metrics.length then
      if mean_last5 s.cache_metrics < cfg.cache_hit_threshold then
        .low_cache_hit_rate (mean_last5 s.cache_metrics)
      else .adaptive_periodic
    else .adaptive_periodic
  else .unknown

/-- Payload of an inbound `user_message`; `none` fields model absent keys
(Python raises `KeyError` when a required key is absent). -/
structure TurnPayload where
  user_id : Option String
  username : Option String
  text : Option String
  chat_id : Option Int
deriving DecidableEq

/-- Payload of a `cache_hit_metric` message. -/
structure CachePayload where
  user_id : Option String
  cache_hit_rate : Option ℚ
deriving DecidableEq

/-- Payload of the outgoing `generate_response` message built by the
session engine (`session_data.created_at` is a wall-clock value, omitted). -/
structure GenMsgPayload where
  user_id : String
  chat_id : Int
  text : String
  include_prompt : Bool
  message_count : Nat
  session_username : Option String
deriving DecidableEq

def session_created_event (uid : String) (username : Option String) : Event :=
  ⟨"user_" ++ uid, "SessionCreatedEvent",
    [("user_id", .s uid),
     ("username", username.elim EvtVal.null EvtVal.s),
     ("created_at", .time)]⟩

def prompt_inclusion_event (cfg : Config) (uid : String) (s : UserSession) : Event :=
  ⟨"user_" ++ uid, "PromptInclusionEvent",
    [("user_id", .s uid),
     ("message_count", .n s.message_count),
     ("strategy", .s cfg.prompt_strategy),
     ("reason", .reasonV (get_prompt_reason cfg s))]⟩

/-- `UserSessionActor._get_or_create_session`: returns the (possibly new)
map, the events emitted, and the session record looked up or created. -/
def get_or_create_session (m : SessionMap) (uid : String)
    (username : Option String) : SessionMap × List Event × UserSession :=
  match lookupSession m uid with
  | some s => (m, [], s)
  | none =>
    let s : UserSession := ⟨uid, username, 0, []⟩
    (setSession m uid s, [session_created_event uid username], s)

/-- `UserSessionActor._handle_user_message`.  Missing required payload keys
raise `KeyError` (modelled by `Except.error`) before any session mutation
or event emission; field access order follows the source
(`user_id`, `username`, `text`, `chat_id`). -/
def handle_user_message (cfg : Config) (m : SessionMap) (p : TurnPayload) :
    Except String (SessionMap × List Event × GenMsgPayload) :=
  match p.user_id with
  | none => .error "KeyError: user_id"
  | some uid =>
    match p.text with
    | none => .error "KeyError: text"
    | some txt =>
      match p.chat_id with
      | none => .error "KeyError: chat_id"
      | some cid =>
        let r := get_or_create_session m uid p.username
        let s1 : UserSession :=
          { r.2.2 with message_count := r.2.2.message_count + 1 }
        let m2 := setSession r.1 uid s1
        let ip := should_include_prompt cfg s1
        let evs2 := if ip then [prompt_inclusion_event cfg uid s1] else []
        .ok (m2, r.2.1 ++ evs2,
          ⟨uid, cid, txt, ip, s1.message_count, s1.username⟩)

/-- One step of `UserSessionActor._update_cache_metrics` on a single
rolling history: append, then keep only the last 20 entries. -/
def pushMetric (h : List ℚ) (r : ℚ) : List ℚ :=
  if 20 < (h ++ [r]).length then (h ++ [r]).drop ((h ++ [r]).length - 20)
  else h ++ [r]

/-- `UserSessionActor._update_cache_metrics`: silent no-op when the payload
user id is absent, empty (Python truthiness of `not user_id`), or has no
session; otherwise push `cache_hit_rate` (default `0.0`) into the rolling
history. -/
def update_cache_metrics (m : SessionMap) (p : CachePayload) : SessionMap :=
  match p.user_id with
  | none => m
  | some uid =>
    if uid = "" then m
    else
      match lookupSession m uid with
      | none => m
      | some s =>
        setSession m uid
          { s with cache_metrics :=
              pushMetric s.cache_metrics (p.cache_hit_rate.getD 0) }

/-- Process a list of user turns in order (repeated calls of
`_handle_user_message` on the private engine state).  A turn whose
handler raises leaves the state unchanged and contributes no events — the
exception escapes to the external runtime, which drops the message. -/
def runTurns (cfg : Config) : SessionMap → List TurnPayload →
    SessionMap × List (List Event)
  | m, [] => (m, [])
  | m, p :: ps =>
    match handle_user_message cfg m p with
    | .error _ =>
      let r := runTurns cfg m ps
      (r.1, [] :: r.2)
    | .ok (m1, evs, _) =>
      let r := runTurns cfg m1 ps
      (r.1, evs :: r.2)

/-! ## Resilient generation pipeline (`GenerationActor`) -/

/-- A JSON document, as produced by the Python JSON parser. -/
inductive Json where
  | obj : List (String × Json) → Json
  | arr : List Json → Json
  | str : String → Json
  | int : Int → Json
  | bool : Bool → Json
  | null : Json

/-- Mutable counters of `GenerationActor`. -/
structure GenState where
  generation_count : Nat
  total_cache_hits : ℚ
  json_failures : Nat
deriving DecidableEq

/-- Result of one successful backend invocation, as observed by
`_call_api`: the concatenated streamed text, the outcome of the Python JSON parse of it (`.error e` stands for a `json.JSONDecodeError` with
message `e`; the JSON grammar itself is external to this core), and the
hit/miss token counts from the terminal usage record (0 when absent). -/
structure ApiResult where
  text : String
  parsed : Except String Json
  hit : Nat
  miss : Nat

/-- Outcome of invoking the backend through the circuit breaker: either a
streamed result or a raised failure (breaker open, or any backend
exception; such failures are never `json.JSONDecodeError`). -/
inductive ApiOutcome where
  | ok : ApiResult → ApiOutcome
  | fail : String → ApiOutcome

/-- The backend as an oracle: answer to the i-th `_call_api` invocation of
one request (0 = first attempt, 1 = fallback retry), given the context and
the JSON-mode flag. -/
def Backend := Nat → List (String × String) → Bool → ApiOutcome

/-- Chat message for the backend: (role, content) pair. -/
abbrev ChatMsg := String × String

/-- `GenerationActor._format_context`. -/
def format_context (cfg : Config) (text : String) (include_prompt : Bool)
    (force_normal : Bool) : List ChatMsg :=
  (if include_prompt then
    [("system",
      if cfg.use_json_mode && !force_normal then cfg.prompts_json
      else cfg.prompts_normal)]
   else []) ++ [("user", text)]

/-- `GenerationActor._log_cache_metrics`: always increments the generation
counter; emits a `CacheHitMetricEvent` on stream `metrics` iff the token
denominator is positive (the periodic average log line produces no event). -/
def log_cache_metrics (st : GenState) (hit miss : Nat) :
    GenState × List Event :=
  if 0 < hit + miss then
    ({ st with generation_count := st.generation_count + 1,
               total_cache_hits := st.total_cache_hits +
                 (hit : ℚ) / ((hit : ℚ) + (miss : ℚ)) },
     [⟨"metrics", "CacheHitMetricEvent",
       [("prompt_cache_hit_tokens", .n hit),
        ("prompt_cache_miss_tokens", .n miss),
        ("cache_hit_rate", .q ((hit : ℚ) / ((hit : ℚ) + (miss : ℚ)))),
        ("timestamp", .time)]⟩])
  else ({ st with generation_count := st.generation_count + 1 }, [])

/-- Python exception classes distinguished by `_generate_response`:
`json.JSONDecodeError` is caught there, everything else propagates. -/
inductive DecodeErr where
  | jsonDecode : String → DecodeErr
  | valueErr : String → DecodeErr
deriving DecidableEq

/-- `GenerationActor._extract_from_json`: parse failure re-raises the
`JSONDecodeError`; a document that is not a mapping containing a
`response` key raises `ValueError`. -/
def extract_from_json (parsed : Except String Json) : Except DecodeErr Json :=
  match parsed with
  | .error e => .error (.jsonDecode e)
  | .ok d =>
    match d with
    | .obj fields =>
      match fields.lookup "response" with
      | some v => .ok v
      | none => .error (.valueErr "JSON missing response field")
    | _ => .error (.valueErr "JSON missing response field")

/-- Final value produced by `_generate_response`: either the raw backend
text (a Python `str`) or the JSON value extracted from the `response`
field. -/
inductive GenValue where
  | text : String → GenValue
  | json : Json → GenValue

/-- Failures that escape `_generate_response`. -/
inductive PyErr where
  | api : String → PyErr
  | valueErr : String → PyErr
deriving DecidableEq

/-- Trace of one `_generate_response` run: the `_call_api` invocations
(context, JSON-mode flag) in order, and the events emitted. -/
structure GenTrace where
  calls : List (List ChatMsg × Bool)
  events : List Event

def json_failure_event (uid : String) (e : String) : Event :=
  ⟨"user_" ++ uid, "JSONModeFailureEvent",
    [("user_id", .s uid), ("error", .s e), ("timestamp", .time)]⟩

/-- `GenerationActor._generate_response`.  The `try` block covers the
first `_call_api` and the JSON extraction; only `json.JSONDecodeError` is
caught by the `except` clause — the `ValueError` raised for a missing
`response` field propagates.  Inside the handler: the failure counter is
bumped, a `JSONModeFailureEvent` is emitted, and iff fallback is enabled a
single plain-variant retry is made, whose raw text is returned unparsed;
otherwise the raw text of the first response is returned. -/
def generate_response (cfg : Config) (bk : Backend) (st : GenState)
    (text user_id : String) (include_prompt : Bool) :
    Except PyErr GenValue × GenState × GenTrace :=
  let msgs := format_context cfg text include_prompt false
  let use_json := cfg.use_json_mode
  match bk 0 msgs use_json with
  | .fail e => (.error (.api e), st, ⟨[(msgs, use_json)], []⟩)
  | .ok r =>
    let lc := log_cache_metrics st r.hit r.miss
    if use_json then
      match extract_from_json r.parsed with
      | .ok v => (.ok (.json v), lc.1, ⟨[(msgs, use_json)], lc.2⟩)
      | .error (.valueErr e) =>
        (.error (.valueErr e), lc.1, ⟨[(msgs, use_json)], lc.2⟩)
      | .error (.jsonDecode e) =>
        let st2 := { lc.1 with json_failures := lc.1.json_failures + 1 }
        let fev := json_failure_event user_id e
        if cfg.json_fallback_enabled && use_json then
          let msgs2 := format_context cfg text include_prompt true
          match bk 1 msgs2 false with
          | .fail e2 =>
            (.error (.api e2), st2,
             ⟨[(msgs, use_json), (msgs2, false)], lc.2 ++ [fev]⟩)
          | .ok r2 =>
            let lc2 := log_cache_metrics st2 r2.hit r2.miss
            (.ok (.text r2.text), lc2.1,
             ⟨[(msgs, use_json), (msgs2, false)], lc.2 ++ [fev] ++ lc2.2⟩)
        else
          (.ok (.text r.text), st2, ⟨[(msgs, use_json)], lc.2 ++ [fev]⟩)
    else
      (.ok (.text r.text), lc.1, ⟨[(msgs, use_json)], lc.2⟩)

/-- Payload of an inbound `generate_response` message as read by the
generation actor (`message_count` and `session_data` are not read). -/
structure GenRespPayload where
  user_id : Option String
  chat_id : Option Int
  text : Option String
  include_prompt : Option Bool
deriving DecidableEq

/-- A message sent by the generation actor via the actor system, with its
destination actor id and payload. -/
inductive SentMsg where
  | botResponse : String → String → Int → GenValue → SentMsg
  | errorMsg : String → String → Int → String → String → SentMsg

def SentMsg.dest : SentMsg → String
  | .botResponse d _ _ _ => d
  | .errorMsg d _ _ _ _ => d

def SentMsg.mtype : SentMsg → String
  | .botResponse _ _ _ _ => "bot_response"
  | .errorMsg _ _ _ _ _ => "error"

def errMessage : PyErr → String
  | .api e => e
  | .valueErr e => e

/-- Whether the Python slice `response_text[:50]` (in the success log line)
evaluates without a `TypeError`: slicing works on `str` and `list` values,
and raises on dict / int / bool / None. -/
def sliceOk : GenValue → Bool
  | .text _ => true
  | .json (.str _) => true
  | .json (.arr _) => true
  | _ => false

/-- `GenerationActor.handle_message`.  Non-`generate_response` messages are
ignored.  The required payload fields are read *before* the `try` block, so
a missing field raises `KeyError` out of the handler; `include_prompt`
defaults to `True`.  Inside the `try`, every exception — pipeline failures
and the `TypeError` from slicing an unsliceable final value in the success
log line — is converted to an `error` message to the transport actor. -/
def gen_handle_message (cfg : Config) (bk : Backend) (st : GenState)
    (mtype : String) (p : GenRespPayload) :
    Except String (GenState × GenTrace × List SentMsg) :=
  if mtype ≠ "generate_response" then .ok (st, ⟨[], []⟩, [])
  else
    match p.user_id with
    | none => .error "KeyError: user_id"
    | some uid =>
      match p.chat_id with
      | none => .error "KeyError: chat_id"
      | some cid =>
        match p.text with
        | none => .error "KeyError: text"
        | some txt =>
          let ip := p.include_prompt.getD true
          match generate_response cfg bk st txt uid ip with
          | (.ok v, st1, tr) =>
            if sliceOk v then
              .ok (st1, tr, [.botResponse "telegram" uid cid v])
            else
              .ok (st1, tr,
                [.errorMsg "telegram" uid cid "TypeError" "generation_error"])
          | (.error e, st1, tr) =>
            .ok (st1, tr,
              [.errorMsg "telegram" uid cid (errMessage e) "generation_error"])

def exceptOk : {ε α : Type} → Except ε α → Bool
  | _, _, .ok _ => true
  | _, _, .error _ => false

/-! ## Derived definitions used by the properties -/

/-- Inserting a sequence of cache-metric messages for one user
(repeated `_update_cache_metrics` calls). -/
def insertMetrics (m : SessionMap) (u : String) (vs : List ℚ) : SessionMap :=
  vs.foldl (fun m v => update_cache_metrics m ⟨some u, some v⟩) m

/-- A user turn whose payload carries all required fields. -/
def validTurn (p : TurnPayload) : Prop :=
  p.user_id.isSome ∧ p.text.isSome ∧ p.chat_id.isSome

instance (p : TurnPayload) : Decidable (validTurn p) := by
  unfold validTurn
  infer_instance

/-- Recognize a `SessionCreatedEvent` recorded for user `u`. -/
def isCreatedFor (u : String) (ev : Event) : Bool :=
  ev.event_type == "SessionCreatedEvent" &&
    ev.data.lookup "user_id" == some (.s u)

/-- Number of turns addressed to user `u`. -/
def turnsFor (u : String) (ps : List TurnPayload) : Nat :=
  ps.countP (fun p => p.user_id == some u)

/-- Message counter of the session of `u` (0 when no session exists). -/
def sessionCount (m : SessionMap) (u : String) : Nat :=
  (lookupSession m u).elim 0 (fun s => s.message_count)

/-! ## Concrete fixtures used by witnesses and counterexamples -/

/-- Periodic strategy, interval 3, threshold 0.30, JSON mode off. -/
def cfgP : Config := ⟨false, false, "periodic", true, 3, 3/10, "pj", "pn"⟩

/-- JSON mode on, fallback on. -/
def cfgJ : Config := ⟨true, true, "periodic", true, 3, 3/10, "pj", "pn"⟩

/-- JSON mode on, fallback off. -/
def cfgJnf : Config := ⟨true, false, "periodic", true, 3, 3/10, "pj", "pn"⟩

/-- Session fixture for the C5 witness. -/
def s5 : UserSession := ⟨"u1", none, 3, []⟩

/-- 21 metric values 0, 1, …, 20. -/
def vs21 : List ℚ := (List.range 21).map Nat.cast

/-- Turn fixtures. -/
def t1 : TurnPayload := ⟨some "u1", none, some "hi", some 1⟩

def t2 : TurnPayload := ⟨some "u2", some "bob", some "yo", some 2⟩

def ps4 : List TurnPayload := [t1, t2, t1]

/-- Turn with a present but empty user id. -/
def tEmpty : TurnPayload := ⟨some "", none, some "hi", some 5⟩

/-- Initial generation-actor state. -/
def st0 : GenState := ⟨0, 0, 0⟩

/-- Backend that always raises through the circuit breaker. -/
def bkFail : Backend := fun _ _ _ => .fail "api down"

/-- Valid generation payload lacking the include_prompt field. -/
def pC10 : GenRespPayload := ⟨some "u1", some 7, some "hey", none⟩

/-- Recognize a `JSONModeFailureEvent`. -/
def isJsonFailureEvent (ev : Event) : Bool :=
  ev.event_type == "JSONModeFailureEvent"

/-- Decode failure in the sense of the claim: the extraction step does not
produce a value (parse failure OR missing response field). -/
def decodeFails (parsed : Except String Json) : Bool :=
  match extract_from_json parsed with
  | .ok _ => false
  | .error _ => true

/-- Backend whose text parses to a mapping without a response field. -/
def bkNoField : Backend := fun _ _ _ =>
  .ok ⟨"noresp", .ok (.obj [("answer", .str "hi")]), 0, 0⟩

/-- Backend whose text parses to a JSON value that is not a mapping. -/
def bkNotDict : Backend := fun _ _ _ =>
  .ok ⟨"plain", .ok (.str "hi"), 0, 0⟩

/-- Backend whose first answer fails to parse as JSON and whose second
(fallback) answer is plain text. -/
def bkParse : Backend := fun i _ _ =>
  if i = 0 then .ok ⟨"not json", .error "Expecting value", 0, 0⟩
  else .ok ⟨"fallback text", .ok (.str "x"), 0, 0⟩

/-- Claim C2 exactly as stated (any decode failure — parse failure or
missing/ill-typed response field — triggers one JSONModeFailureEvent and,
with fallback enabled, one plain-variant retry returned unparsed). -/
def ClaimC2 : Prop :=
  ∀ (cfg : Config) (bk : Backend) (st : GenState) (txt uid : String)
    (ip : Bool) (r : ApiResult),
    cfg.use_json_mode = true →
    bk 0 (format_context cfg txt ip false) true = .ok r →
    decodeFails r.parsed = true →
    ((generate_response cfg bk st txt uid ip).2.2.events.countP
        isJsonFailureEvent = 1) ∧
    (cfg.json_fallback_enabled = true →
      (generate_response cfg bk st txt uid ip).2.2.calls =
        [(format_context cfg txt ip false, true),
         (format_context cfg txt ip true, false)] ∧
      ∀ r2, bk 1 (format_context cfg txt ip true) false = .ok r2 →
        (generate_response cfg bk st txt uid ip).1 = .ok (.text r2.text))

/-- Claim C3 exactly as stated (with fallback disabled, every decode
failure returns the raw unparsed backend text, without failing). -/
def ClaimC3 : Prop :=
  ∀ (cfg : Config) (bk : Backend) (st : GenState) (txt uid : String)
    (ip : Bool) (r : ApiResult),
    cfg.use_json_mode = true →
    cfg.json_fallback_enabled = false →
    bk 0 (format_context cfg txt ip false) true = .ok r →
    decodeFails r.parsed = true →
    (generate_response cfg bk st txt uid ip).1 = .ok (.text r.text)

/-- The no-escape component of claim C8 exactly as stated (the handler never
lets an exception escape, for every generate_response message). -/
def ClaimC8 : Prop :=
  ∀ (cfg : Config) (bk : Backend) (st : GenState) (p : GenRespPayload),
    exceptOk (gen_handle_message cfg bk st "generate_response" p) = true

/-! ## Helper lemmas -/

theorem lookup_set_self (m : SessionMap) (u : String) (s : UserSession) :
    lookupSession (setSession m u s) u = some s := by
  induction m with
  | nil => simp [setSession, lookupSession]
  | cons kv rest ih =>
    obtain ⟨k, v⟩ := kv
    by_cases h : k = u
    · simp [setSession, lookupSession, h]
    · simp [setSession, lookupSession, h, ih]

theorem lookup_set_ne (m : SessionMap) (u u' : String) (s : UserSession)
    (h : u ≠ u') :
    lookupSession (setSession m u s) u' = lookupSession m u' := by
  induction m with
  | nil => simp [setSession, lookupSession, h]
  | cons kv rest ih =>
    obtain ⟨k, v⟩ := kv
    by_cases hk : k = u
    · subst hk
      simp [setSession, lookupSession, h]
    · simp [setSession, lookupSession, hk, ih]

/-! ## Claim C1 -/

/-- C1: for every session (message counter ≥ 1, rolling history h) and
positive interval N, the prompt-inclusion decision is: true when the
periodic switch is disabled; else true for strategy `always`; else, for
`periodic`, true iff `message_count % N = 1`; else, for `adaptive`, true
iff `message_count % N = 1` or at least 5 samples are recorded and the
mean of the last 5 is strictly below the threshold; else false. -/
theorem claim_C1_prompt_policy (cfg : Config) (s : UserSession)
    (hm : 1 ≤ s.message_count) (hN : 0 < cfg.system_prompt_interval) :
    should_include_prompt cfg s = true ↔
      (cfg.enable_periodic_prompt = false ∨
       (cfg.enable_periodic_prompt = true ∧ cfg.prompt_strategy = "always") ∨
       (cfg.enable_periodic_prompt = true ∧ cfg.prompt_strategy = "periodic" ∧
          s.message_count % cfg.system_prompt_interval = 1) ∨
       (cfg.enable_periodic_prompt = true ∧ cfg.prompt_strategy = "adaptive" ∧
          (s.message_count % cfg.system_prompt_interval = 1 ∨
           (5 ≤ s.cache_metrics.length ∧
            mean_last5 s.cache_metrics < cfg.cache_hit_threshold)))) := by
  unfold should_include_prompt
  cases hb : cfg.enable_periodic_prompt with
  | false => simp [hb]
  | true =>
    by_cases h1 : cfg.prompt_strategy = "always"
    · simp [hb, h1]
    · by_cases h2 : cfg.prompt_strategy = "periodic"
      · simp [hb, h1, h2]
      · by_cases h3 : cfg.prompt_strategy = "adaptive"
        · by_cases h4 : s.message_count % cfg.system_prompt_interval = 1
          · simp [hb, h1, h2, h3, h4]
          · by_cases h5 : 5 ≤ s.cache_metrics.length
            · by_cases h6 :
                  mean_last5 s.cache_metrics < cfg.cache_hit_threshold
              · simp [hb, h1, h2, h3, h4, h5, h6]
              · simp [hb, h1, h2, h3, h4, h5, h6]
            · simp [hb, h1, h2, h3, h4, h5]
        · simp [hb, h1, h2, h3]

/-- Witness for C1: message count 4, interval 3, periodic strategy — the
prompt is included because 4 % 3 = 1. -/
theorem claim_C1_prompt_policy_witness :
    should_include_prompt cfgP ⟨"u1", none, 4, []⟩ = true :=
  (claim_C1_prompt_policy cfgP ⟨"u1", none, 4, []⟩ (by decide)
    (by decide)).mpr (by decide)

/-! ## Claim C6 -/

/-- C6: after a successful backend invocation with usage counts
`hit`/`miss`, when `hit + miss > 0` the computed cache-hit rate is exactly
`hit / (hit + miss)` and exactly one `CacheHitMetricEvent` on stream
`metrics` carrying the two counts and the rate is emitted; when
`hit + miss = 0` no metric event is emitted; the generation counter is
incremented in both cases. -/
theorem claim_C6_cache_rate (st : GenState) (hit miss : Nat) :
    (log_cache_metrics st hit miss).1.generation_count
        = st.generation_count + 1 ∧
    (0 < hit + miss →
      (log_cache_metrics st hit miss).2 =
        [⟨"metrics", "CacheHitMetricEvent",
          [("prompt_cache_hit_tokens", .n hit),
           ("prompt_cache_miss_tokens", .n miss),
           ("cache_hit_rate", .q ((hit : ℚ) / ((hit : ℚ) + (miss : ℚ)))),
           ("timestamp", .time)]⟩]) ∧
    (hit + miss = 0 → (log_cache_metrics st hit miss).2 = []) := by
  refine ⟨?_, ?_, ?_⟩
  · unfold log_cache_metrics
    by_cases h : 0 < hit + miss <;> simp [h]
  · intro h
    unfold log_cache_metrics
    simp [h]
  · intro h
    unfold log_cache_metrics
    simp [h]

/-- Witness for C6: hit = 30, miss = 70 produces one metric event whose
rate is 30 / 100 = 0.30; hit = 0, miss = 0 produces no event. -/
theorem claim_C6_cache_rate_witness :
    (log_cache_metrics ⟨0, 0, 0⟩ 30 70).2 =
      [⟨"metrics", "CacheHitMetricEvent",
        [("prompt_cache_hit_tokens", .n 30),
         ("prompt_cache_miss_tokens", .n 70),
         ("cache_hit_rate", .q ((30 : ℚ) / ((30 : ℚ) + (70 : ℚ)))),
         ("timestamp", .time)]⟩] ∧
    (30 : ℚ) / ((30 : ℚ) + (70 : ℚ)) = 3 / 10 ∧
    (log_cache_metrics ⟨0, 0, 0⟩ 0 0).2 = [] :=
  ⟨(claim_C6_cache_rate ⟨0, 0, 0⟩ 30 70).2.1 (by decide), by norm_num,
   (claim_C6_cache_rate ⟨0, 0, 0⟩ 0 0).2.2 (by decide)⟩

/-! ## Claim C5 -/

theorem pushMetric_length_le (h : List ℚ) (r : ℚ) :
    (pushMetric h r).length ≤ 20 := by
  unfold pushMetric
  split
  · next hl =>
    simp only [List.length_drop, List.length_append, List.length_singleton]
      at hl ⊢
    omega
  · next hl =>
    simp only [List.length_append, List.length_singleton] at hl ⊢
    omega

theorem pushMetric_snoc (h : List ℚ) (r : ℚ) :
    pushMetric h r = h.drop (h.length + 1 - 20) ++ [r] := by
  unfold pushMetric
  split
  · next hl =>
    rw [List.drop_append_eq_append_drop]
    simp only [List.length_append, List.length_singleton]
    have h0 : h.length + 1 - 20 - h.length = 0 := by omega
    rw [h0]
    simp
  · next hl =>
    simp only [List.length_append, List.length_singleton] at hl
    have h0 : h.length + 1 - 20 = 0 := by omega
    rw [h0]
    simp

theorem foldl_pushMetric_of_le (vs : List ℚ) (h0 : List ℚ)
    (hb : h0.length ≤ 20) :
    vs.foldl pushMetric h0 =
      (h0 ++ vs).drop (h0.length + vs.length - 20) := by
  induction vs using List.reverseRecOn with
  | nil =>
    simp only [List.foldl_nil, List.append_nil, List.length_nil, Nat.add_zero]
    rw [Nat.sub_eq_zero_of_le hb, List.drop_zero]
  | append_singleton xs v ih =>
    rw [List.foldl_append]
    simp only [List.foldl_cons, List.foldl_nil]
    rw [ih, pushMetric_snoc, List.drop_drop, ← List.append_assoc]
    conv_rhs => rw [List.drop_append_eq_append_drop]
    have hE0 : h0.length + (xs ++ [v]).length - 20 - (h0 ++ xs).length = 0 := by
      simp only [List.length_append, List.length_singleton]
      omega
    rw [hE0, List.drop_zero]
    congr 2
    simp only [List.length_drop, List.length_append, List.length_singleton]
    omega

theorem foldl_pushMetric_last20 (vs : List ℚ) (h0 : List ℚ)
    (hk : 20 ≤ vs.length) :
    vs.foldl pushMetric h0 = vs.drop (vs.length - 20) := by
  cases vs with
  | nil => simp at hk
  | cons v vs' =>
    rw [List.foldl_cons,
        foldl_pushMetric_of_le vs' (pushMetric h0 v) (pushMetric_length_le h0 v)]
    simp only [List.length_cons] at hk ⊢
    by_cases h19 : vs'.length = 19
    · -- exactly twenty values inserted: everything inserted is kept
      rw [pushMetric_snoc]
      have hlen : (h0.drop (h0.length + 1 - 20) ++ [v]).length + vs'.length - 20
          = (h0.drop (h0.length + 1 - 20)).length := by
        simp only [List.length_append, List.length_singleton, List.length_drop]
        omega
      rw [hlen, List.append_assoc, List.drop_append_eq_append_drop]
      have hz : vs'.length + 1 - 20 = 0 := by omega
      simp [hz]
    · -- more than twenty values inserted
      have h20 : 20 ≤ vs'.length := by omega
      rw [List.drop_append_eq_append_drop]
      have hnil : (pushMetric h0 v).drop
          ((pushMetric h0 v).length + vs'.length - 20) = [] := by
        apply List.drop_eq_nil_of_le
        omega
      rw [hnil]
      have harith : (pushMetric h0 v).length + vs'.length - 20 -
          (pushMetric h0 v).length = vs'.length - 20 := by omega
      have harith2 : vs'.length + 1 - 20 = (vs'.length - 20) + 1 := by omega
      rw [harith, harith2, List.drop_succ_cons]
      simp

theorem update_cm_none (m : SessionMap) (pr : Option ℚ) :
    update_cache_metrics m ⟨none, pr⟩ = m := rfl

theorem update_cm_empty (m : SessionMap) (pr : Option ℚ) :
    update_cache_metrics m ⟨some "", pr⟩ = m := by
  simp [update_cache_metrics]

theorem update_cm_unknown (m : SessionMap) (uid : String) (pr : Option ℚ)
    (hu : uid ≠ "") (h : lookupSession m uid = none) :
    update_cache_metrics m ⟨some uid, pr⟩ = m := by
  simp [update_cache_metrics, hu, h]

theorem update_cm_known (m : SessionMap) (uid : String) (pr : Option ℚ)
    (s : UserSession) (hu : uid ≠ "") (h : lookupSession m uid = some s) :
    update_cache_metrics m ⟨some uid, pr⟩ =
      setSession m uid
        { s with cache_metrics := pushMetric s.cache_metrics (pr.getD 0) } := by
  simp [update_cache_metrics, hu, h]

theorem insertMetrics_history (u : String) (vs : List ℚ) :
    ∀ (m : SessionMap) (s : UserSession), u ≠ "" →
    lookupSession m u = some s →
    lookupSession (insertMetrics m u vs) u =
      some { s with cache_metrics := vs.foldl pushMetric s.cache_metrics } := by
  induction vs with
  | nil =>
    intro m s _ hs
    simpa [insertMetrics]
  | cons v vs ih =>
    intro m s hu hs
    have hstep : update_cache_metrics m ⟨some u, some v⟩ =
        setSession m u
          { s with cache_metrics := pushMetric s.cache_metrics v } := by
      simp [update_cache_metrics, hu, hs]
    simp only [insertMetrics, List.foldl_cons]
    have := ih (setSession m u
        { s with cache_metrics := pushMetric s.cache_metrics v })
      { s with cache_metrics := pushMetric s.cache_metrics v }
      hu (lookup_set_self _ _ _)
    simp only [insertMetrics] at this
    rw [hstep, this]

/-- C5: (a) after any cache-metric update completes, the rolling history of the touched
session holds at most 20 entries (untouched sessions are returned
unchanged); (b) after inserting any k ≥ 20 values for an existing session,
the stored history equals exactly the last 20 inserted values in insertion
order; (c) a cache-metric message for a user id with no session leaves the
session map unchanged. -/
theorem claim_C5_rolling_history :
    (∀ (m : SessionMap) (p : CachePayload) (u : String) (s' : UserSession),
        lookupSession (update_cache_metrics m p) u = some s' →
        s'.cache_metrics.length ≤ 20 ∨ lookupSession m u = some s') ∧
    (∀ (m : SessionMap) (u : String) (s : UserSession) (vs : List ℚ),
        u ≠ "" → lookupSession m u = some s → 20 ≤ vs.length →
        lookupSession (insertMetrics m u vs) u =
          some { s with cache_metrics := vs.drop (vs.length - 20) }) ∧
    (∀ (m : SessionMap) (p : CachePayload) (uid : String),
        p.user_id = some uid → lookupSession m uid = none →
        update_cache_metrics m p = m) := by
  refine ⟨?_, ?_, ?_⟩
  · intro m p u s' hlk
    obtain ⟨pu, pr⟩ := p
    cases pu with
    | none =>
      rw [update_cm_none] at hlk
      exact Or.inr hlk
    | some uid =>
      by_cases he : uid = ""
      · subst he
        rw [update_cm_empty] at hlk
        exact Or.inr hlk
      · cases hs : lookupSession m uid with
        | none =>
          rw [update_cm_unknown m uid pr he hs] at hlk
          exact Or.inr hlk
        | some s =>
          rw [update_cm_known m uid pr s he hs] at hlk
          by_cases hu : uid = u
          · subst hu
            rw [lookup_set_self] at hlk
            left
            cases hlk
            exact pushMetric_length_le _ _
          · rw [lookup_set_ne _ _ _ _ hu] at hlk
            exact Or.inr hlk
  · intro m u s vs hu hs hk
    rw [insertMetrics_history u vs m s hu hs,
        foldl_pushMetric_last20 vs s.cache_metrics hk]
  · intro m p uid hp hnone
    obtain ⟨pu, pr⟩ := p
    simp only at hp
    subst hp
    by_cases he : uid = ""
    · subst he
      exact update_cm_empty m pr
    · exact update_cm_unknown m uid pr he hnone

/-- Witness for C5: inserting 21 values for an existing session leaves
exactly the last 20 of them, in insertion order. -/
theorem claim_C5_rolling_history_witness :
    lookupSession (insertMetrics [("u1", s5)] "u1" vs21) "u1" =
      some { s5 with cache_metrics := vs21.drop (vs21.length - 20) } :=
  claim_C5_rolling_history.2.1 [("u1", s5)] "u1" s5 vs21 (by decide)
    (by simp [lookupSession])
    (by unfold vs21; rw [List.length_map, List.length_range]; omega)

/-! ## Claim C4 -/

theorem countP_created_prompt_events (u : String) (cfg : Config)
    (uid : String) (s : UserSession) (b : Bool) :
    (if b then [prompt_inclusion_event cfg uid s] else []).countP
      (isCreatedFor u) = 0 := by
  cases b <;> simp [prompt_inclusion_event, isCreatedFor]

theorem isCreatedFor_created_event (u uid : String) (un : Option String) :
    isCreatedFor u (session_created_event uid un) = (uid == u) := by
  simp [isCreatedFor, session_created_event, List.lookup]

theorem handle_user_message_existing (cfg : Config) (m : SessionMap)
    (uid : String) (un : Option String) (txt : String) (cid : Int)
    (s : UserSession) (hs : lookupSession m uid = some s) :
    handle_user_message cfg m ⟨some uid, un, some txt, some cid⟩ =
      .ok (setSession m uid { s with message_count := s.message_count + 1 },
        (if should_include_prompt cfg
              { s with message_count := s.message_count + 1 }
         then [prompt_inclusion_event cfg uid
                { s with message_count := s.message_count + 1 }]
         else []),
        ⟨uid, cid, txt,
         should_include_prompt cfg
           { s with message_count := s.message_count + 1 },
         s.message_count + 1, s.username⟩) := by
  simp [handle_user_message, get_or_create_session, hs]

theorem handle_user_message_new (cfg : Config) (m : SessionMap)
    (uid : String) (un : Option String) (txt : String) (cid : Int)
    (hs : lookupSession m uid = none) :
    handle_user_message cfg m ⟨some uid, un, some txt, some cid⟩ =
      .ok (setSession (setSession m uid ⟨uid, un, 0, []⟩) uid ⟨uid, un, 1, []⟩,
        session_created_event uid un ::
          (if should_include_prompt cfg ⟨uid, un, 1, []⟩
           then [prompt_inclusion_event cfg uid ⟨uid, un, 1, []⟩] else []),
        ⟨uid, cid, txt, should_include_prompt cfg ⟨uid, un, 1, []⟩, 1, un⟩) := by
  simp [handle_user_message, get_or_create_session, hs]

/-- One valid turn: the events it emits, and how it changes the map, in the
form needed by the `runTurns` induction. -/
theorem step_facts (cfg : Config) (m : SessionMap) (uid : String)
    (un : Option String) (txt : String) (cid : Int) :
    ∃ m' evs g,
      handle_user_message cfg m ⟨some uid, un, some txt, some cid⟩ =
          .ok (m', evs, g) ∧
      (∀ u, evs.countP (isCreatedFor u) =
         if u = uid ∧ lookupSession m uid = none then 1 else 0) ∧
      (∀ u, u ≠ uid → lookupSession m' u = lookupSession m u) ∧
      sessionCount m' uid = sessionCount m uid + 1 ∧
      (lookupSession m' uid).isSome := by
  cases hs : lookupSession m uid with
  | some s =>
    refine ⟨_, _, _, handle_user_message_existing cfg m uid un txt cid s hs,
      ?_, ?_, ?_, ?_⟩
    · intro u
      rw [if_neg (show ¬(u = uid ∧ some s = none) by simp)]
      exact countP_created_prompt_events u cfg uid _ _
    · intro u hu
      exact lookup_set_ne _ _ _ _ (fun h => hu h.symm)
    · simp [sessionCount, lookup_set_self, hs]
    · simp [lookup_set_self]
  | none =>
    refine ⟨_, _, _, handle_user_message_new cfg m uid un txt cid hs,
      ?_, ?_, ?_, ?_⟩
    · intro u
      simp only [List.countP_cons, isCreatedFor_created_event,
        countP_created_prompt_events]
      by_cases hu : u = uid
      · subst hu
        simp
      · simp [beq_iff_eq, hu, show uid ≠ u from fun h => hu h.symm]
    · intro u hu
      rw [lookup_set_ne _ _ _ _ (fun h => hu h.symm),
          lookup_set_ne _ _ _ _ (fun h => hu h.symm)]
    · simp [sessionCount, lookup_set_self, hs]
    · simp [lookup_set_self]

/-- Invariant of a run of valid turns, for an arbitrary starting map. -/
theorem runTurns_facts (cfg : Config) (u : String) :
    ∀ (ps : List TurnPayload) (m : SessionMap),
    (∀ p ∈ ps, validTurn p) →
    ((runTurns cfg m ps).2.flatten.countP (isCreatedFor u) =
       if (lookupSession m u).isSome then 0 else min 1 (turnsFor u ps)) ∧
    sessionCount (runTurns cfg m ps).1 u = sessionCount m u + turnsFor u ps := by
  intro ps
  induction ps with
  | nil =>
    intro m _
    constructor
    · simp [runTurns, turnsFor]
    · simp [runTurns, turnsFor]
  | cons p ps ih =>
    intro m hv
    obtain ⟨pu, pun, pt, pc⟩ := p
    obtain ⟨h1, h2, h3⟩ := hv _ (List.mem_cons_self _ _)
    obtain ⟨uid, rfl⟩ := Option.isSome_iff_exists.mp h1
    obtain ⟨txt, rfl⟩ := Option.isSome_iff_exists.mp h2
    obtain ⟨cid, rfl⟩ := Option.isSome_iff_exists.mp h3
    obtain ⟨m', evs, g, hstep, hcount, hother, hinc, hsome⟩ :=
      step_facts cfg m uid pun txt cid
    have hrest := ih m' (fun q hq => hv q (List.mem_cons_of_mem _ hq))
    simp only [runTurns, hstep, List.flatten_cons, List.countP_append]
    constructor
    · rw [hcount u, hrest.1]
      by_cases hu : u = uid
      · subst hu
        rw [if_pos hsome]
        cases hm0 : lookupSession m u with
        | none =>
          have hpos : turnsFor u (⟨some u, pun, some txt, some cid⟩ :: ps) =
              turnsFor u ps + 1 := by
            simp [turnsFor, List.countP_cons]
          rw [if_pos ⟨rfl, rfl⟩,
              if_neg (show ¬((none : Option UserSession)).isSome = true
                by simp), hpos]
          omega
        | some s0 =>
          rw [if_neg (show ¬(u = u ∧ some s0 = none) by simp),
              if_pos (show (some s0).isSome = true by simp)]
      · have hturns : turnsFor u (⟨some uid, pun, some txt, some cid⟩ :: ps) =
            turnsFor u ps := by
          simp [turnsFor, List.countP_cons, beq_iff_eq,
            show uid ≠ u from fun h => hu h.symm]
        rw [if_neg (show ¬(u = uid ∧ lookupSession m uid = none)
              from fun h => hu h.1),
            hother u hu, hturns]
        omega
    · rw [hrest.2]
      by_cases hu : u = uid
      · subst hu
        rw [hinc]
        have hturns : turnsFor u (⟨some u, pun, some txt, some cid⟩ :: ps) =
            turnsFor u ps + 1 := by
          simp [turnsFor, List.countP_cons]
        omega
      · have hsc : sessionCount m' u = sessionCount m u := by
          unfold sessionCount
          rw [hother u hu]
        have hturns : turnsFor u (⟨some uid, pun, some txt, some cid⟩ :: ps) =
            turnsFor u ps := by
          simp [turnsFor, List.countP_cons, beq_iff_eq,
            show uid ≠ u from fun h => hu h.symm]
        rw [hsc, hturns]

/-- C4: starting from an empty session map and processing any sequence of
valid user turns, for every user id u and every prefix of the run: exactly
one `SessionCreatedEvent` for u has been emitted as soon as u has had at
least one turn (and none before), and the message counter of u equals the
number of turns of u so far — it increments by one per turn and never
resets. -/
theorem claim_C4_session_idempotent (cfg : Config) (ps : List TurnPayload)
    (u : String) (hv : ∀ p ∈ ps, validTurn p) :
    ∀ i : Nat,
      ((runTurns cfg [] (ps.take i)).2.flatten.countP (isCreatedFor u)
         = min 1 (turnsFor u (ps.take i))) ∧
      sessionCount (runTurns cfg [] (ps.take i)).1 u
         = turnsFor u (ps.take i) := by
  intro i
  have hv' : ∀ p ∈ ps.take i, validTurn p :=
    fun p hp => hv p (List.take_subset i ps hp)
  have h := runTurns_facts cfg u (ps.take i) [] hv'
  simpa [lookupSession, sessionCount] using h

/-- Witness for C4: three valid turns (u1, u2, u1) — u1 gets exactly one
`SessionCreatedEvent` and a message counter of 2. -/
theorem claim_C4_session_idempotent_witness :
    ((runTurns cfgP [] (ps4.take 3)).2.flatten.countP (isCreatedFor "u1")
       = min 1 (turnsFor "u1" (ps4.take 3))) ∧
    sessionCount (runTurns cfgP [] (ps4.take 3)).1 "u1"
       = turnsFor "u1" (ps4.take 3) :=
  claim_C4_session_idempotent cfgP ps4 "u1"
    (by simp [ps4, t1, t2, validTurn]) 3

/-! ## Claim C9 -/

/-- C9 counterexample: a turn whose user_id is present but empty is NOT
dropped, contrary to the claim — the handler succeeds, a session keyed by
the empty string is created, and a `SessionCreatedEvent` is emitted. -/
theorem claim_C9_counterexample :
    exceptOk (handle_user_message cfgP [] tEmpty) = true ∧
    (handle_user_message cfgP [] tEmpty).toOption.map
        (fun out => ((lookupSession out.1 "").isSome,
                     out.2.1.countP (isCreatedFor "")))
      = some (true, 1) := by
  constructor
  · decide
  · decide

/-- C9 (amended): a turn payload with an ABSENT user_id, text, or chat_id
fails fast — the handler raises `KeyError` before any session is created
or mutated and before any event is emitted, so processing the message
leaves the session map unchanged and records no events (the external
runtime then drops the message); present-but-empty values are not
rejected. -/
theorem claim_C9_missing_field (cfg : Config) (m : SessionMap)
    (p : TurnPayload)
    (h : p.user_id = none ∨ p.text = none ∨ p.chat_id = none) :
    (∃ e, handle_user_message cfg m p = .error e) ∧
    runTurns cfg m [p] = (m, [[]]) := by
  have herr : ∃ e, handle_user_message cfg m p = .error e := by
    obtain ⟨pu, pun, pt, pc⟩ := p
    rcases h with h | h | h
    · have h' : pu = none := h
      subst h'
      exact ⟨_, rfl⟩
    · have h' : pt = none := h
      subst h'
      cases pu with
      | none => exact ⟨_, rfl⟩
      | some uid => exact ⟨_, rfl⟩
    · have h' : pc = none := h
      subst h'
      cases pu with
      | none => exact ⟨_, rfl⟩
      | some uid =>
        cases pt with
        | none => exact ⟨_, rfl⟩
        | some txt => exact ⟨_, rfl⟩
  refine ⟨herr, ?_⟩
  obtain ⟨e, he⟩ := herr
  simp [runTurns, he]

/-- Witness for the amended C9: a payload with no user_id is rejected and
leaves the (empty) session map untouched. -/
theorem claim_C9_missing_field_witness :
    (∃ e, handle_user_message cfgP []
        ⟨none, none, some "hi", some 1⟩ = .error e) ∧
    runTurns cfgP [] [⟨none, none, some "hi", some 1⟩] = ([], [[]]) :=
  claim_C9_missing_field cfgP [] ⟨none, none, some "hi", some 1⟩ (Or.inl rfl)

/-! ## Claim C10 -/

theorem generate_response_first_call (cfg : Config) (bk : Backend)
    (st : GenState) (txt uid : String) (ip : Bool) :
    (generate_response cfg bk st txt uid ip).2.2.calls.head? =
      some (format_context cfg txt ip false, cfg.use_json_mode) := by
  unfold generate_response
  dsimp only
  split
  · rfl
  · split
    · split
      · rfl
      · rfl
      · split
        · split
          · rfl
          · rfl
        · rfl
    · rfl

theorem gen_handle_message_run (cfg : Config) (bk : Backend) (st : GenState)
    (p : GenRespPayload) (uid : String) (cid : Int) (txt : String)
    (h1 : p.user_id = some uid) (h2 : p.chat_id = some cid)
    (h3 : p.text = some txt) :
    gen_handle_message cfg bk st "generate_response" p =
      (match generate_response cfg bk st txt uid (p.include_prompt.getD true)
       with
       | (.ok v, st1, tr) =>
         if sliceOk v then
           .ok (st1, tr, [.botResponse "telegram" uid cid v])
         else
           .ok (st1, tr,
             [.errorMsg "telegram" uid cid "TypeError" "generation_error"])
       | (.error e, st1, tr) =>
         .ok (st1, tr,
           [.errorMsg "telegram" uid cid (errMessage e) "generation_error"])) := by
  obtain ⟨pu, pc, pt, pi⟩ := p
  have h1' : pu = some uid := h1
  have h2' : pc = some cid := h2
  have h3' : pt = some txt := h3
  subst h1' h2' h3'
  unfold gen_handle_message
  rw [if_neg (fun h => h rfl)]

/-- C10: a generate_response payload lacking the include_prompt field is
handled exactly as if include_prompt were true, and the resulting first
backend context places the system-role prompt entry before the user-role
entry. -/
theorem claim_C10_default_include_prompt (cfg : Config) (bk : Backend)
    (st : GenState) (p : GenRespPayload) (uid : String) (cid : Int)
    (txt : String) (h1 : p.user_id = some uid) (h2 : p.chat_id = some cid)
    (h3 : p.text = some txt) (h4 : p.include_prompt = none) :
    gen_handle_message cfg bk st "generate_response" p =
      gen_handle_message cfg bk st "generate_response"
        { p with include_prompt := some true } ∧
    (generate_response cfg bk st txt uid true).2.2.calls.head? =
      some (("system",
              if cfg.use_json_mode then cfg.prompts_json
              else cfg.prompts_normal) :: [("user", txt)],
            cfg.use_json_mode) := by
  constructor
  · rw [gen_handle_message_run cfg bk st p uid cid txt h1 h2 h3,
        gen_handle_message_run cfg bk st { p with include_prompt := some true }
          uid cid txt (by simpa using h1) (by simpa using h2)
          (by simpa using h3)]
    simp [h4]
  · rw [generate_response_first_call cfg bk st txt uid true]
    have hff : format_context cfg txt true false =
        ("system",
          if cfg.use_json_mode then cfg.prompts_json
          else cfg.prompts_normal) :: [("user", txt)] := by
      simp [format_context]
    rw [hff]

/-- Witness for C10: a concrete payload without include_prompt, JSON mode
on — same handling as include_prompt = true, system entry first. -/
theorem claim_C10_default_include_prompt_witness :
    gen_handle_message cfgJ bkFail st0 "generate_response" pC10 =
      gen_handle_message cfgJ bkFail st0 "generate_response"
        { pC10 with include_prompt := some true } ∧
    (generate_response cfgJ bkFail st0 "hey" "u1" true).2.2.calls.head? =
      some (("system",
              if cfgJ.use_json_mode then cfgJ.prompts_json
              else cfgJ.prompts_normal) :: [("user", "hey")],
            cfgJ.use_json_mode) :=
  claim_C10_default_include_prompt cfgJ bkFail st0 pC10 "u1" 7 "hey"
    rfl rfl rfl rfl

/-! ## Claims C2 and C3 -/

theorem countP_jsonfail_log (st : GenState) (hit miss : Nat) :
    (log_cache_metrics st hit miss).2.countP isJsonFailureEvent = 0 := by
  unfold log_cache_metrics
  split
  · simp [isJsonFailureEvent]
  · simp

theorem log_no_jsonfail (st : GenState) (hit miss : Nat) :
    ∀ ev ∈ (log_cache_metrics st hit miss).2,
      isJsonFailureEvent ev = false := by
  unfold log_cache_metrics
  split
  · intro ev hev
    simp only [List.mem_singleton] at hev
    subst hev
    rfl
  · intro ev hev
    simp at hev

theorem jsonfail_event_true (uid e : String) :
    isJsonFailureEvent (json_failure_event uid e) = true := rfl

/-- Full characterization of `_generate_response` on a JSON parse
failure of the first backend answer. -/
theorem generate_response_parse_failure (cfg : Config) (bk : Backend)
    (st : GenState) (txt uid : String) (ip : Bool) (r : ApiResult)
    (e : String)
    (hj : cfg.use_json_mode = true)
    (hcall : bk 0 (format_context cfg txt ip false) true = .ok r)
    (hparse : r.parsed = .error e) :
    ((generate_response cfg bk st txt uid ip).2.2.events.countP
        isJsonFailureEvent = 1) ∧
    (∀ ev ∈ (generate_response cfg bk st txt uid ip).2.2.events,
       isJsonFailureEvent ev = true → ev = json_failure_event uid e) ∧
    (cfg.json_fallback_enabled = true →
       (generate_response cfg bk st txt uid ip).2.2.calls =
         [(format_context cfg txt ip false, true),
          (format_context cfg txt ip true, false)] ∧
       (∀ r2, bk 1 (format_context cfg txt ip true) false = .ok r2 →
          (generate_response cfg bk st txt uid ip).1 = .ok (.text r2.text)) ∧
       (∀ e2, bk 1 (format_context cfg txt ip true) false = .fail e2 →
          (generate_response cfg bk st txt uid ip).1 = .error (.api e2))) ∧
    (cfg.json_fallback_enabled = false →
       (generate_response cfg bk st txt uid ip).2.2.calls =
         [(format_context cfg txt ip false, true)] ∧
       (generate_response cfg bk st txt uid ip).1 = .ok (.text r.text)) := by
  unfold generate_response
  dsimp only
  rw [hj, hcall]
  dsimp only
  simp only [eq_self_iff_true, ite_true]
  rw [hparse]
  simp only [extract_from_json]
  cases hfb : cfg.json_fallback_enabled with
  | true =>
    simp only [Bool.true_and, if_true]
    cases hbk2 : bk 1 (format_context cfg txt ip true) false with
    | fail e2 =>
      refine ⟨?_, ?_, ?_, ?_⟩
      · simp [List.countP_append, countP_jsonfail_log,
          jsonfail_event_true, List.countP_cons]
      · intro ev hev htrue
        simp only [List.mem_append, List.mem_singleton] at hev
        rcases hev with hev | hev
        · exact absurd htrue (by simp [log_no_jsonfail st r.hit r.miss ev hev])
        · exact hev
      · intro _
        refine ⟨rfl, ?_, ?_⟩
        · intro r2 hr2
          cases hr2
        · intro e2' he2
          cases he2
          rfl
      · intro hc
        cases hc
    | ok r2 =>
      refine ⟨?_, ?_, ?_, ?_⟩
      · simp [List.countP_append, countP_jsonfail_log,
          jsonfail_event_true, List.countP_cons]
      · intro ev hev htrue
        simp only [List.mem_append, List.mem_singleton] at hev
        rcases hev with (hev | hev) | hev
        · exact absurd htrue (by simp [log_no_jsonfail st r.hit r.miss ev hev])
        · exact hev
        · exact absurd htrue
            (by simp [log_no_jsonfail _ r2.hit r2.miss ev hev])
      · intro _
        refine ⟨rfl, ?_, ?_⟩
        · intro r2' hr2
          cases hr2
          rfl
        · intro e2 he2
          cases he2
      · intro hc
        cases hc
  | false =>
    rw [if_neg (show ¬((false && true) = true) by simp)]
    refine ⟨?_, ?_, ?_, ?_⟩
    · simp [List.countP_append, countP_jsonfail_log,
        jsonfail_event_true, List.countP_cons]
    · intro ev hev htrue
      simp only [List.mem_append, List.mem_singleton] at hev
      rcases hev with hev | hev
      · exact absurd htrue (by simp [log_no_jsonfail st r.hit r.miss ev hev])
      · exact hev
    · intro hc
      cases hc
    · intro _
      exact ⟨rfl, rfl⟩

/-- C2 counterexample: under JSON mode with fallback enabled, a backend
text that parses to a mapping WITHOUT a response field (a decode failure
per the claim) emits no JSONModeFailureEvent and triggers no fallback —
the ValueError escapes instead — refuting the claim. -/
theorem claim_C2_counterexample : ¬ ClaimC2 := by
  intro h
  have hinst := (h cfgJ bkNoField st0 "q" "u1" true
      ⟨"noresp", .ok (.obj [("answer", .str "hi")]), 0, 0⟩ rfl rfl rfl).1
  have heval : (generate_response cfgJ bkNoField st0 "q" "u1" true).2.2.events
      = [] := rfl
  rw [heval] at hinst
  simp at hinst

/-- C2 (amended): under JSON mode, a JSON PARSE failure of the backend
text causes exactly one JSONModeFailureEvent (carrying the user id and the
parser message, stream `user_<id>`), and, when JSON fallback is enabled,
exactly one additional backend invocation with the plain prompt variant
whose result is returned as final text unparsed, with no second fallback
attempt.  A text that parses to a non-mapping or to a mapping without a
response field instead raises ValueError, which bypasses the event and the
fallback and surfaces as a generation error. -/
theorem claim_C2_parse_failure_path (cfg : Config) (bk : Backend)
    (st : GenState) (txt uid : String) (ip : Bool) (r : ApiResult)
    (e : String)
    (hj : cfg.use_json_mode = true)
    (hcall : bk 0 (format_context cfg txt ip false) true = .ok r)
    (hparse : r.parsed = .error e) :
    ((generate_response cfg bk st txt uid ip).2.2.events.countP
        isJsonFailureEvent = 1) ∧
    (∀ ev ∈ (generate_response cfg bk st txt uid ip).2.2.events,
       isJsonFailureEvent ev = true → ev = json_failure_event uid e) ∧
    (cfg.json_fallback_enabled = true →
       (generate_response cfg bk st txt uid ip).2.2.calls =
         [(format_context cfg txt ip false, true),
          (format_context cfg txt ip true, false)] ∧
       (∀ r2, bk 1 (format_context cfg txt ip true) false = .ok r2 →
          (generate_response cfg bk st txt uid ip).1 = .ok (.text r2.text))) := by
  obtain ⟨h1, h2, h3, _⟩ :=
    generate_response_parse_failure cfg bk st txt uid ip r e hj hcall hparse
  exact ⟨h1, h2, fun hfb => ⟨(h3 hfb).1, (h3 hfb).2.1⟩⟩

/-- Witness for the amended C2: a concrete parse failure with fallback
enabled — one failure event, two backend calls, raw fallback text
returned. -/
theorem claim_C2_parse_failure_path_witness :
    (generate_response cfgJ bkParse st0 "q" "u1" true).2.2.events.countP
        isJsonFailureEvent = 1 ∧
    (generate_response cfgJ bkParse st0 "q" "u1" true).2.2.calls =
      [(format_context cfgJ "q" true false, true),
       (format_context cfgJ "q" true true, false)] ∧
    (generate_response cfgJ bkParse st0 "q" "u1" true).1 =
      .ok (.text "fallback text") := by
  have h := claim_C2_parse_failure_path cfgJ bkParse st0 "q" "u1" true
      ⟨"not json", .error "Expecting value", 0, 0⟩ "Expecting value"
      rfl rfl rfl
  obtain ⟨hc, _, hfb⟩ := h
  obtain ⟨hcalls, hres⟩ := hfb rfl
  exact ⟨hc, hcalls, hres ⟨"fallback text", .ok (.str "x"), 0, 0⟩ rfl⟩

/-- C3 counterexample: with fallback disabled, a backend text that parses
to a JSON value that is not a mapping (a decode failure per the claim)
does NOT yield the raw text — the request fails with ValueError instead,
refuting the claim. -/
theorem claim_C3_counterexample : ¬ ClaimC3 := by
  intro h
  have hinst := h cfgJnf bkNotDict st0 "q" "u1" true
      ⟨"plain", .ok (.str "hi"), 0, 0⟩ rfl rfl rfl rfl
  have heval : (generate_response cfgJnf bkNotDict st0 "q" "u1" true).1 =
      .error (.valueErr "JSON missing response field") := rfl
  rw [heval] at hinst
  exact Except.noConfusion hinst

/-- C3 (amended): under JSON mode with fallback disabled, a JSON PARSE
failure results in the raw, unparsed backend text being returned as the
final response text after a single backend call — the request does not
fail.  A text that parses but is not a mapping containing a response field
instead raises ValueError and surfaces as a generation error. -/
theorem claim_C3_parse_failure_raw (cfg : Config) (bk : Backend)
    (st : GenState) (txt uid : String) (ip : Bool) (r : ApiResult)
    (e : String)
    (hj : cfg.use_json_mode = true)
    (hnf : cfg.json_fallback_enabled = false)
    (hcall : bk 0 (format_context cfg txt ip false) true = .ok r)
    (hparse : r.parsed = .error e) :
    (generate_response cfg bk st txt uid ip).1 = .ok (.text r.text) ∧
    (generate_response cfg bk st txt uid ip).2.2.calls =
      [(format_context cfg txt ip false, true)] := by
  obtain ⟨_, _, _, h4⟩ :=
    generate_response_parse_failure cfg bk st txt uid ip r e hj hcall hparse
  exact ⟨(h4 hnf).2, (h4 hnf).1⟩

/-- Witness for the amended C3: concrete parse failure, fallback disabled
— the raw text of the (single) backend answer is returned. -/
theorem claim_C3_parse_failure_raw_witness :
    (generate_response cfgJnf bkParse st0 "q" "u1" true).1 =
      .ok (.text "not json") ∧
    (generate_response cfgJnf bkParse st0 "q" "u1" true).2.2.calls =
      [(format_context cfgJnf "q" true false, true)] :=
  claim_C3_parse_failure_raw cfgJnf bkParse st0 "q" "u1" true
    ⟨"not json", .error "Expecting value", 0, 0⟩ "Expecting value"
    rfl rfl rfl rfl

/-! ## Claims C7 and C8 -/

/-- Shape of every successful run of the generation handler on a payload
with all required fields: exactly one message is sent, to the transport
actor, either a bot_response with the final pipeline value or an error
message typed generation_error. -/
theorem gen_handle_message_shape (cfg : Config) (bk : Backend)
    (st : GenState) (p : GenRespPayload) (uid : String) (cid : Int)
    (txt : String) (h1 : p.user_id = some uid) (h2 : p.chat_id = some cid)
    (h3 : p.text = some txt) :
    ∃ st1 tr msgs,
      gen_handle_message cfg bk st "generate_response" p =
          .ok (st1, tr, msgs) ∧
      ((∃ v, msgs = [.botResponse "telegram" uid cid v] ∧
          (generate_response cfg bk st txt uid (p.include_prompt.getD true)).1
            = .ok v) ∨
       (∃ emsg,
          msgs = [.errorMsg "telegram" uid cid emsg "generation_error"])) := by
  rw [gen_handle_message_run cfg bk st p uid cid txt h1 h2 h3]
  rcases hg : generate_response cfg bk st txt uid (p.include_prompt.getD true)
    with ⟨res, st1, tr⟩
  cases res with
  | ok v =>
    by_cases hs : sliceOk v = true
    · exact ⟨st1, tr, _, by simp [hs], Or.inl ⟨v, rfl, rfl⟩⟩
    · exact ⟨st1, tr, _, by simp [hs], Or.inr ⟨"TypeError", rfl⟩⟩
  | error e =>
    exact ⟨st1, tr, _, rfl, Or.inr ⟨errMessage e, rfl⟩⟩

/-- C7 (refuting the forwarding claim): the metric event computed from the
stream usage record (hit=30, miss=70 as the failing input) goes to stream
`metrics` and carries no user id key at all, and the generation handler
only ever sends messages to the transport actor `telegram` with type
bot_response or error — never a cache_hit_metric message — so the computed
rate is not forwarded to the Session & Prompt-Policy Engine and the
adaptive policy never receives it. -/
theorem claim_C7_no_forwarding :
    ((log_cache_metrics st0 30 70).2.all
        (fun ev => ev.stream_id == "metrics" &&
          !((ev.data.map Prod.fst).contains "user_id")) = true) ∧
    (∀ (cfg : Config) (bk : Backend) (st : GenState) (p : GenRespPayload)
       (uid : String) (cid : Int) (txt : String),
       p.user_id = some uid → p.chat_id = some cid → p.text = some txt →
       ∀ out, gen_handle_message cfg bk st "generate_response" p = .ok out →
         ∀ sm ∈ out.2.2,
           SentMsg.dest sm = "telegram" ∧
           SentMsg.mtype sm ≠ "cache_hit_metric") := by
  constructor
  · decide
  · intro cfg bk st p uid cid txt h1 h2 h3 out hout sm hsm
    obtain ⟨st1, tr, msgs, heq, hshape⟩ :=
      gen_handle_message_shape cfg bk st p uid cid txt h1 h2 h3
    rw [heq] at hout
    cases hout
    rcases hshape with ⟨v, hm, _⟩ | ⟨emsg, hm⟩
    · subst hm
      simp only [List.mem_singleton] at hsm
      subst hsm
      exact ⟨rfl, by simp [SentMsg.mtype]⟩
    · subst hm
      simp only [List.mem_singleton] at hsm
      subst hsm
      exact ⟨rfl, by simp [SentMsg.mtype]⟩

/-- Witness for the universally quantified part of C7, at a concrete failing
run: the single message sent goes to `telegram` and is not a
cache_hit_metric message. -/
theorem claim_C7_no_forwarding_witness :
    SentMsg.dest
        (.errorMsg "telegram" "u1" 1 "api down" "generation_error")
      = "telegram" ∧
    SentMsg.mtype
        (.errorMsg "telegram" "u1" 1 "api down" "generation_error")
      ≠ "cache_hit_metric" :=
  claim_C7_no_forwarding.2 cfgJ bkFail st0 ⟨some "u1", some 1, some "hi", none⟩
    "u1" 1 "hi" rfl rfl rfl
    (st0, ⟨[(format_context cfgJ "hi" true false, true)], []⟩,
     [.errorMsg "telegram" "u1" 1 "api down" "generation_error"])
    rfl
    (.errorMsg "telegram" "u1" 1 "api down" "generation_error")
    (List.mem_singleton.mpr rfl)

/-- C8 counterexample: a generate_response message whose payload lacks
user_id raises KeyError out of the handler — the exception escapes,
refuting the claim as stated for arbitrary payloads. -/
theorem claim_C8_counterexample : ¬ ClaimC8 := by
  intro h
  have hinst := h cfgJ bkFail st0 ⟨none, some 1, some "hi", none⟩
  have heval : gen_handle_message cfgJ bkFail st0 "generate_response"
      ⟨none, some 1, some "hi", none⟩ = .error "KeyError: user_id" := rfl
  rw [heval] at hinst
  simp [exceptOk] at hinst

/-- C8 (amended): for every generate_response message whose payload
carries user_id, chat_id and text, the handler never lets an exception
escape: it returns normally having sent exactly one message to the
transport actor — a bot_response carrying the final pipeline value on
success, otherwise an error message carrying the user id, chat id, error
description and error_type generation_error.  A payload missing one of
those fields raises KeyError out of the handler instead. -/
theorem claim_C8_no_escape (cfg : Config) (bk : Backend) (st : GenState)
    (p : GenRespPayload) (uid : String) (cid : Int) (txt : String)
    (h1 : p.user_id = some uid) (h2 : p.chat_id = some cid)
    (h3 : p.text = some txt) :
    ∃ st1 tr msgs,
      gen_handle_message cfg bk st "generate_response" p =
          .ok (st1, tr, msgs) ∧
      ((∃ v, msgs = [.botResponse "telegram" uid cid v] ∧
          (generate_response cfg bk st txt uid (p.include_prompt.getD true)).1
            = .ok v) ∨
       (∃ emsg,
          msgs = [.errorMsg "telegram" uid cid emsg "generation_error"])) :=
  gen_handle_message_shape cfg bk st p uid cid txt h1 h2 h3

/-- Witness for the amended C8: with a failing backend, the handler still
returns normally and sends one message to the transport actor. -/
theorem claim_C8_no_escape_witness :
    ∃ st1 tr msgs,
      gen_handle_message cfgJ bkFail st0 "generate_response"
          ⟨some "u1", some 1, some "hi", none⟩ = .ok (st1, tr, msgs) ∧
      ((∃ v, msgs = [.botResponse "telegram" "u1" 1 v] ∧
          (generate_response cfgJ bkFail st0 "hi" "u1" true).1 = .ok v) ∨
       (∃ emsg,
          msgs = [.errorMsg "telegram" "u1" 1 emsg "generation_error"])) := by
  have h := claim_C8_no_escape cfgJ bkFail st0
    ⟨some "u1", some 1, some "hi", none⟩ "u1" 1 "hi" rfl rfl rfl
  simpa using h

end Chimera
